import Mathlib

/-!
# Verification of `easy_imap` (`connection.py`)

A shallow embedding of the single source file `connection.py` of the
`easy_imap` library, together with theorems settling the specification
claims about it.

Modelling conventions:
* The IMAP transport (`imaplib.IMAP4_SSL`, reached through the `_`-prefix
  passthrough of `Connection.__getattr__`) is an external collaborator.  It is
  modelled as a `Transport`: a record of pure response functions, one per
  transport operation used by the code, each returning the `(status, payload)`
  pair the Python library returns.
* Python exceptions are modelled by the `Except PyErr` monad-style results.
  `PyErr.attributeError` models the `AttributeError` raised by
  `None.groups()` when `re.match` fails; `PyErr.indexError` models `list[0]`
  on an empty list.
* Mutable `Connection` state (`self.mailbox`, `self.readonly`) is passed
  explicitly as a `ConnState`; every operation returns the result, the new
  state and the trace of transport calls it issued, so that claims counting
  transport invocations can be stated.
* Strings are Lean `String`s; character-level work is done on `String.data`.
-/

set_option autoImplicit false

namespace EasyImap

/-- Errors raised by the code.  `badReturnStatus` and `readOnlyException` are
the two exception classes declared in `connection.py`; `attributeError` and
`indexError` model the built-in Python exceptions the code can raise
implicitly.  `unparsableListing` is the distinct parse error named by the
specification's error taxonomy; the source never constructs it, it exists
here so that statements about the spec's taxonomy can be written down. -/
inductive PyErr where
  | badReturnStatus (msg : String)
  | readOnlyException
  | attributeError
  | indexError
  | unparsableListing (line : String)
  deriving DecidableEq, Repr

/-- One call made against the transport (the wrapped `IMAP4_SSL` object). -/
inductive TCall where
  | select (mailbox : String) (readonly : Bool)
  | search (charset : Option String) (args : List String)
  | fetch (nums : String) (command : String)
  | store (message : String) (command : String) (flags : String)
  | list
  | login (user : String) (password : String)
  deriving DecidableEq, Repr

/-- The transport collaborator: a pure response function per operation,
returning the `(status, payload)` pair of the Python imap library. -/
structure Transport where
  selectR : String → Bool → String × List String
  searchR : Option String → List String → String × List String
  fetchR : String → String → String × List String
  storeR : String → String → String → String × List String
  listR : String × List String
  loginR : String → String → String × List String

/-- The mutable attributes of a `Connection` object: `self.mailbox` and
`self.readonly`, initialised to `"INBOX"` and `False` in `__init__`. -/
structure ConnState where
  mailbox : String
  readonly : Bool
  deriving DecidableEq, Repr

/-- The initial connection state set in `Connection.__init__`. -/
def initConnState : ConnState := { mailbox := "INBOX", readonly := false }

/-- The attributes of a `MailBox` object: `self._mailbox, self._readonly`
(the connection back-reference is passed explicitly as `ConnState`). -/
structure MailBoxS where
  mailbox : String
  readonly : Bool
  deriving DecidableEq, Repr

/-- The attributes of a `Message` object: the inherited `MailBox` attributes
plus `self.num`. -/
structure MessageS where
  mailbox : String
  readonly : Bool
  num : String
  deriving DecidableEq, Repr

/-- The `MailBox` part of a `Message` (a `Message` is-a `MailBox`). -/
def MessageS.toMailBox (m : MessageS) : MailBoxS :=
  { mailbox := m.mailbox, readonly := m.readonly }

/-- Every operation returns its result (or error), the connection state after
the call, and the ordered list of transport calls it made. -/
def ConnResult (α : Type) : Type := Except PyErr α × ConnState × List TCall

/-! ## The LIST response pattern

`_list_response_pattern = re.compile(r'\((?P<flags>.*?)\) "(?P<delimiter>.*)" (?P<name>.*)')`

used via `re.match` (anchored at the start only).  The functions below
implement exactly the backtracking semantics of this pattern on a character
list: `.` matches any character except a newline, `(?P<flags>.*?)` is lazy
(shortest match such that the remainder of the pattern matches),
`(?P<delimiter>.*)` and `(?P<name>.*)` are greedy (longest such match). -/

/-- Longest newline-free prefix: what the final greedy `(?P<name>.*)` of the
pattern matches (a match need not extend to the end of the string). -/
def takeNoNl : List Char → List Char
  | [] => []
  | c :: t => if c = '\n' then [] else c :: takeNoNl t

/-- Attempt to match the literal `" ` (closing quote of the delimiter, then a
space) at the current position, with `c` the current head character; on
success the name group is the longest newline-free remainder. -/
def litHere (c : Char) (t : List Char) : Option (List Char × List Char) :=
  match t with
  | t1 :: rest => if c = '"' ∧ t1 = ' ' then some ([], takeNoNl rest) else none
  | [] => none

/-- The greedy `(?P<delimiter>.*)" (?P<name>.*)` tail of the pattern: the
delimiter extends to the rightmost `" ` occurrence reachable without crossing
a newline, and the name is the newline-free remainder after it. -/
def splitDelim : List Char → Option (List Char × List Char)
  | [] => none
  | c :: t =>
    if c = '\n' then none
    else
      match splitDelim t with
      | some (d, n) => some (c :: d, n)
      | none => litHere c t

/-- Attempt to match the literal `) "` (end of the flags group) at the current
position followed by the delimiter/name tail of the pattern. -/
def tryHere (c : Char) (t : List Char) : Option (List Char × List Char × List Char) :=
  match t with
  | t1 :: t2 :: rest =>
    if c = ')' ∧ t1 = ' ' ∧ t2 = '"' then
      match splitDelim rest with
      | some (d, n) => some ([], d, n)
      | none => none
    else none
  | _ => none

/-- The lazy `(?P<flags>.*?)\) "...` part: at each position first try to match
the rest of the pattern; on failure consume one (non-newline) character into
the flags group and move on. -/
def findFlagsSplit : List Char → Option (List Char × List Char × List Char)
  | [] => none
  | c :: t =>
    match tryHere c t with
    | some r => some r
    | none =>
      if c = '\n' then none
      else
        match findFlagsSplit t with
        | some (f, d, n) => some (c :: f, d, n)
        | none => none

/-- `_list_response_pattern.match(line)`: the leading literal `\(` followed by
the rest of the pattern; returns the three captured groups, or `none` when
the line does not match (Python's `match` returns `None`). -/
def pyListMatch : List Char → Option (List Char × List Char × List Char)
  | '(' :: rest => findFlagsSplit rest
  | _ => none

/-- Drop every leading `"` character. -/
def dropLeadingQuotes : List Char → List Char
  | [] => []
  | c :: t => if c = '"' then dropLeadingQuotes t else c :: t

/-- Python `str.strip('"')`: remove ALL leading and trailing double-quote
characters (not merely one pair). -/
def pyStripQuotes (l : List Char) : List Char :=
  (dropLeadingQuotes (dropLeadingQuotes l.reverse).reverse)

/-- `_parse_list_response(line)`: match the pattern and return the groups,
with the name stripped of surrounding double quotes.  When the pattern does
not match, `.match(line)` is `None` and `.groups()` raises `AttributeError`. -/
def _parse_list_response (line : String) : Except PyErr (String × String × String) :=
  match pyListMatch line.data with
  | none => .error .attributeError
  | some (f, d, n) => .ok (String.mk f, String.mk d, String.mk (pyStripQuotes n))

/-- `_ok(ok)`: raise `BadReturnStatus("status was {}".format(ok))` unless the
status is `"OK"`. -/
def _ok (ok : String) : Except PyErr Unit :=
  if ok = "OK" then .ok () else .error (.badReturnStatus ("status was " ++ ok))

/-- Python `s.split(' ')`: split at every single space character, keeping
empty pieces (so `"".split(' ') == ['']` and `"a  b".split(' ') == ['a','','b']`). -/
def pySplitSpace : List Char → List (List Char)
  | [] => [[]]
  | c :: t =>
    match pySplitSpace t with
    | h :: r => if c = ' ' then [] :: h :: r else (c :: h) :: r
    | [] => [[c]]

/-! ## Connection -/

/-- `Connection.switch(mailbox, readonly)`: issue the transport select call,
validate the status, then run `self.mailbox = mailbox` and
`self.readonly = self.readonly` — the second assignment reassigns the OLD
value to itself (connection.py line 121), so the cached read-only flag is
never updated. -/
def Connection.switch (tr : Transport) (st : ConnState) (mailbox : String)
    (readonly : Bool) : ConnResult Unit :=
  match _ok (tr.selectR mailbox readonly).1 with
  | .error e => (.error e, st, [.select mailbox readonly])
  | .ok _ =>
    (.ok (), { mailbox := mailbox, readonly := st.readonly }, [.select mailbox readonly])

/-- `Connection.select(mailbox, readonly)`: switch, then construct and return
a `MailBox` bound to this connection with the given name and read-only flag. -/
def Connection.select (tr : Transport) (st : ConnState) (mailbox : String)
    (readonly : Bool) : ConnResult MailBoxS :=
  match Connection.switch tr st mailbox readonly with
  | (.error e, st', tc) => (.error e, st', tc)
  | (.ok _, st', tc) => (.ok { mailbox := mailbox, readonly := readonly }, st', tc)

/-- `Connection.search(*args, charset=...)`: transport search, validate
status, then `results[0]`: empty string gives `[]`, anything else is split at
spaces into the id list.  `results[0]` on an empty payload raises
`IndexError`. -/
def Connection.search (tr : Transport) (st : ConnState) (charset : Option String)
    (args : List String) : ConnResult (List String) :=
  match _ok (tr.searchR charset args).1 with
  | .error e => (.error e, st, [.search charset args])
  | .ok _ =>
    match (tr.searchR charset args).2 with
    | [] => (.error .indexError, st, [.search charset args])
    | r :: _ =>
      if r = "" then (.ok [], st, [.search charset args])
      else (.ok ((pySplitSpace r.data).map String.mk), st, [.search charset args])

/-- `Connection.fetch(nums, *args)`: join the item numbers with spaces, wrap
the parts in parentheses, fetch and validate. -/
def Connection.fetch (tr : Transport) (st : ConnState) (nums : List String)
    (args : List String) : ConnResult (List String) :=
  let numString := String.intercalate " " nums
  let command := "(" ++ String.intercalate " " args ++ ")"
  match _ok (tr.fetchR numString command).1 with
  | .error e => (.error e, st, [.fetch numString command])
  | .ok _ => (.ok (tr.fetchR numString command).2, st, [.fetch numString command])

/-- The per-message loop of `Connection.store`: one transport store call per
message, each status validated, collecting the resulting flag payloads in
input order; the first failure aborts the loop. -/
def storeLoop (tr : Transport) (cmd : String) (flags : String) :
    List String → Except PyErr (List (List String)) × List TCall
  | [] => (.ok [], [])
  | m :: ms =>
    match _ok (tr.storeR m cmd flags).1 with
    | .error e => (.error e, [.store m cmd flags])
    | .ok _ =>
      match storeLoop tr cmd flags ms with
      | (.error e, tc) => (.error e, .store m cmd flags :: tc)
      | (.ok rest, tc) => (.ok ((tr.storeR m cmd flags).2 :: rest), .store m cmd flags :: tc)

/-- `Connection.store(messages, flags, command, silent)`: build the command
token (`command + "FLAGS"`, plus `".SILENT"` when silent) and run the
per-message store loop.  The connection state is not touched. -/
def Connection.store (tr : Transport) (st : ConnState) (messages : List String)
    (flags : String) (command : String) (silent : Bool) : ConnResult (List (List String)) :=
  let cmd := command ++ "FLAGS" ++ (if silent then ".SILENT" else "")
  match storeLoop tr cmd flags messages with
  | (.error e, tc) => (.error e, st, tc)
  | (.ok results, tc) => (.ok results, st, tc)

/-- Python dict insertion for `boxes[name] = this_box`: overwrite in place
when the key exists, else append (insertion order preserved). -/
def dictInsert (d : List (String × String × String)) (name flags delim : String) :
    List (String × String × String) :=
  match d with
  | [] => [(name, flags, delim)]
  | (k, v) :: t =>
    if k = name then (name, flags, delim) :: t else (k, v) :: dictInsert t name flags delim

/-- The parsing loop of `Connection.list`: parse each listing line and insert
it into the mapping; the first parse failure aborts the whole call. -/
def listLoop (boxlist : List String) (acc : List (String × String × String)) :
    Except PyErr (List (String × String × String)) :=
  match boxlist with
  | [] => .ok acc
  | line :: rest =>
    match _parse_list_response line with
    | .error e => .error e
    | .ok (flags, delim, name) => listLoop rest (dictInsert acc name flags delim)

/-- `Connection.list()`: transport list, validate status, then build the
mapping from mailbox name to its flags and delimiter. -/
def Connection.list (tr : Transport) (st : ConnState) :
    ConnResult (List (String × String × String)) :=
  match _ok tr.listR.1 with
  | .error e => (.error e, st, [.list])
  | .ok _ =>
    match listLoop tr.listR.2 [] with
    | .error e => (.error e, st, [.list])
    | .ok boxes => (.ok boxes, st, [.list])

/-- `Connection.login(user, password)`: transport login, validate status,
return the first element of the payload. -/
def Connection.login (tr : Transport) (st : ConnState) (user password : String) :
    ConnResult String :=
  match _ok (tr.loginR user password).1 with
  | .error e => (.error e, st, [.login user password])
  | .ok _ =>
    match (tr.loginR user password).2 with
    | [] => (.error .indexError, st, [.login user password])
    | v :: _ => (.ok v, st, [.login user password])

/-! ## MailBox -/

/-- `MailBox._select()`: switch the connection only when its cached current
mailbox name differs from this mailbox's name (the read-only flag is not
compared). -/
def MailBox._select (tr : Transport) (st : ConnState) (mb : MailBoxS) : ConnResult Unit :=
  if st.mailbox ≠ mb.mailbox then Connection.switch tr st mb.mailbox mb.readonly
  else (.ok (), st, [])

/-- `MailBox.search(*args, **kwargs)`: ensure selected, then wrap each id from
`Connection.search` in a `Message` bound to this mailbox. -/
def MailBox.search (tr : Transport) (st : ConnState) (mb : MailBoxS)
    (charset : Option String) (args : List String) : ConnResult (List MessageS) :=
  match MailBox._select tr st mb with
  | (.error e, st', tc) => (.error e, st', tc)
  | (.ok _, st', tc) =>
    match Connection.search tr st' charset args with
    | (.error e, st'', tc') => (.error e, st'', tc ++ tc')
    | (.ok ids, st'', tc') =>
      (.ok (ids.map fun n => { mailbox := mb.mailbox, readonly := mb.readonly, num := n }),
        st'', tc ++ tc')

/-- `MailBox.fetch(nums, *args)`: ensure selected, then delegate to
`Connection.fetch`. -/
def MailBox.fetch (tr : Transport) (st : ConnState) (mb : MailBoxS)
    (nums : List String) (args : List String) : ConnResult (List String) :=
  match MailBox._select tr st mb with
  | (.error e, st', tc) => (.error e, st', tc)
  | (.ok _, st', tc) =>
    match Connection.fetch tr st' nums args with
    | (res, st'', tc') => (res, st'', tc ++ tc')

/-- `MailBox.store(*args, **kwargs)`: raise `ReadOnlyException` immediately
when the mailbox is read-only (before any transport call); else ensure
selected and delegate to `Connection.store`. -/
def MailBox.store (tr : Transport) (st : ConnState) (mb : MailBoxS)
    (messages : List String) (flags : String) (command : String) (silent : Bool) :
    ConnResult (List (List String)) :=
  if mb.readonly then (.error .readOnlyException, st, [])
  else
    match MailBox._select tr st mb with
    | (.error e, st', tc) => (.error e, st', tc)
    | (.ok _, st', tc) =>
      match Connection.store tr st' messages flags command silent with
      | (res, st'', tc') => (res, st'', tc ++ tc')

/-! ## Message -/

/-- `Message.store(flags, command, silent)`: delegate to `MailBox.store` with
the one-element batch `[self.num]`, then return `new_flags[0]`, the single
element of the resulting sequence. -/
def Message.store (tr : Transport) (st : ConnState) (msg : MessageS)
    (flags : String) (command : String) (silent : Bool) : ConnResult (List String) :=
  match MailBox.store tr st msg.toMailBox [msg.num] flags command silent with
  | (.error e, st', tc) => (.error e, st', tc)
  | (.ok newFlags, st', tc) =>
    match newFlags with
    | [] => (.error .indexError, st', tc)
    | x :: _ => (.ok x, st', tc)

/-! ## Helper transports and trace counting -/

/-- Number of select/examine calls in a transport trace. -/
def countSelect (tc : List TCall) : Nat :=
  (tc.filter fun c => match c with | .select _ _ => true | _ => false).length

/-- A transport whose every operation succeeds with status `"OK"`. -/
def okTransport : Transport where
  selectR := fun _ _ => ("OK", ["1"])
  searchR := fun _ _ => ("OK", ["1 2 3"])
  fetchR := fun _ _ => ("OK", ["payload"])
  storeR := fun m _ _ => ("OK", ["flags of " ++ m])
  listR := ("OK", ["(\\HasNoChildren) \"/\" INBOX"])
  loginR := fun _ _ => ("OK", ["Logged in"])

/-- A transport whose every operation fails with status `"NO"`. -/
def noTransport : Transport where
  selectR := fun _ _ => ("NO", [])
  searchR := fun _ _ => ("NO", [])
  fetchR := fun _ _ => ("NO", [])
  storeR := fun _ _ _ => ("NO", [])
  listR := ("NO", [])
  loginR := fun _ _ => ("NO", [])

/-- A transport whose list payload contains a malformed listing line. -/
def badListTransport : Transport :=
  { okTransport with listR := ("OK", ["() \"/\" INBOX", "(\\Seen) / INBOX"]) }

/-- A transport whose search payload is the one-element list `['']`. -/
def emptySearchTransport : Transport :=
  { okTransport with searchR := fun _ _ => ("OK", [""]) }

/-- `noPair l` holds when the two-character literal `" ` (quote then space)
occurs nowhere in `l`. -/
def noPair : List Char → Bool
  | [] => true
  | [_] => true
  | c1 :: c2 :: t => !(c1 == '"' && c2 == ' ') && noPair (c2 :: t)

/-- The canonically shaped listing line `(<flags>) "<delimiter>" <name>`. -/
def mkListLine (flags delim name : List Char) : String :=
  String.mk ('(' :: (flags ++ ')' :: ' ' :: '"' :: (delim ++ '"' :: ' ' :: name)))

/-! ## Lemmas about the LIST pattern -/

theorem noPair_tail {c : Char} {t : List Char} (h : noPair (c :: t) = true) :
    noPair t = true := by
  cases t with
  | nil => rfl
  | cons c2 t2 =>
    simp only [noPair, Bool.and_eq_true] at h
    exact h.2

theorem noPair_cons_space {name : List Char} (h : noPair name = true) :
    noPair (' ' :: name) = true := by
  cases name with
  | nil => rfl
  | cons c2 t2 => simpa [noPair] using h

theorem takeNoNl_eq_self {l : List Char} (h : '\n' ∉ l) : takeNoNl l = l := by
  induction l with
  | nil => rfl
  | cons c t ih =>
    rw [List.mem_cons, not_or] at h
    simp only [takeNoNl, if_neg (Ne.symm h.1)]
    rw [ih h.2]

/-- One-step unfolding of `splitDelim` on a cons cell. -/
theorem splitDelim_cons (c : Char) (t : List Char) :
    splitDelim (c :: t) =
      if c = '\n' then none
      else
        match splitDelim t with
        | some (d, n) => some (c :: d, n)
        | none => litHere c t := rfl

/-- One-step unfolding of `findFlagsSplit` on a cons cell. -/
theorem findFlagsSplit_cons (c : Char) (t : List Char) :
    findFlagsSplit (c :: t) =
      match tryHere c t with
      | some r => some r
      | none =>
        if c = '\n' then none
        else
          match findFlagsSplit t with
          | some (f, d, n) => some (c :: f, d, n)
          | none => none := rfl

theorem litHere_eq_none {c : Char} (t : List Char) (hc : c ≠ '"') :
    litHere c t = none := by
  cases t with
  | nil => rfl
  | cons t1 rest =>
    simp only [litHere]
    rw [if_neg]
    exact fun hand => hc hand.1

theorem splitDelim_eq_none {l : List Char} (h : noPair l = true) :
    splitDelim l = none := by
  induction l with
  | nil => rfl
  | cons c t ih =>
    rw [splitDelim_cons]
    by_cases hc : c = '\n'
    · rw [if_pos hc]
    · rw [if_neg hc, ih (noPair_tail h)]
      show litHere c t = none
      by_cases hq : c = '"'
      · subst hq
        cases t with
        | nil => rfl
        | cons t1 rest =>
          simp only [litHere]
          rw [if_neg]
          intro hand
          simp [noPair, hand.2] at h
      · exact litHere_eq_none t hq

theorem splitDelim_append {delim name : List Char}
    (h3 : '\n' ∉ delim) (h4 : '\n' ∉ name) (h5 : noPair name = true) :
    splitDelim (delim ++ '"' :: ' ' :: name) = some (delim, name) := by
  induction delim with
  | nil =>
    rw [List.nil_append, splitDelim_cons,
      if_neg (by decide : ¬('"' : Char) = '\n'),
      splitDelim_eq_none (noPair_cons_space h5)]
    show litHere '"' (' ' :: name) = some ([], name)
    simp [litHere, takeNoNl_eq_self h4]
  | cons c d' ih =>
    rw [List.mem_cons, not_or] at h3
    rw [List.cons_append, splitDelim_cons, if_neg (Ne.symm h3.1), ih h3.2]

theorem tryHere_eq_none {c : Char} {t : List Char} (hc : c ≠ ')') :
    tryHere c t = none := by
  cases t with
  | nil => rfl
  | cons t1 t2 =>
    cases t2 with
    | nil => rfl
    | cons t2h t2t =>
      simp only [tryHere]
      rw [if_neg]
      exact fun hand => hc hand.1

theorem findFlagsSplit_append {flags tail d n : List Char}
    (h1 : '\n' ∉ flags) (h2 : ')' ∉ flags) (h : splitDelim tail = some (d, n)) :
    findFlagsSplit (flags ++ ')' :: ' ' :: '"' :: tail) = some (flags, d, n) := by
  induction flags with
  | nil =>
    have ht : tryHere ')' (' ' :: '"' :: tail) = some ([], d, n) := by
      simp [tryHere, h]
    rw [List.nil_append, findFlagsSplit_cons, ht]
  | cons c f' ih =>
    rw [List.mem_cons, not_or] at h1 h2
    rw [List.cons_append, findFlagsSplit_cons, tryHere_eq_none (Ne.symm h2.1),
      if_neg (Ne.symm h1.1), ih h1.2 h2.2]

theorem pyListMatch_mkListLine {flags delim name : List Char}
    (h1 : '\n' ∉ flags) (h2 : ')' ∉ flags)
    (h3 : '\n' ∉ delim) (h4 : '\n' ∉ name) (h5 : noPair name = true) :
    pyListMatch (mkListLine flags delim name).data = some (flags, delim, name) := by
  show findFlagsSplit (flags ++ ')' :: ' ' :: '"' :: (delim ++ '"' :: ' ' :: name))
      = some (flags, delim, name)
  exact findFlagsSplit_append h1 h2 (splitDelim_append h3 h4 h5)

/-- Every error produced by `_parse_list_response` is the `AttributeError`
from `None.groups()`. -/
theorem parse_error_is_attributeError {line : String} {e : PyErr}
    (h : _parse_list_response line = .error e) : e = .attributeError := by
  cases hm : pyListMatch line.data with
  | none =>
    have hp : _parse_list_response line = .error .attributeError := by
      unfold _parse_list_response
      rw [hm]
    rw [hp] at h
    injection h with h2
    exact h2.symm
  | some r =>
    obtain ⟨f, d, n⟩ := r
    have hp : _parse_list_response line
        = .ok (String.mk f, String.mk d, String.mk (pyStripQuotes n)) := by
      unfold _parse_list_response
      rw [hm]
    rw [hp] at h
    exact Except.noConfusion h

/-- When any line of the box list fails to match the pattern, the listing
loop fails with the `AttributeError`. -/
theorem listLoop_error {boxlist : List String} (line : String)
    (hmem : line ∈ boxlist) (hline : pyListMatch line.data = none) :
    ∀ acc, listLoop boxlist acc = .error .attributeError := by
  induction boxlist with
  | nil => cases hmem
  | cons l ls ih =>
    intro acc
    rcases List.mem_cons.mp hmem with heq | hmem'
    · subst heq
      simp only [listLoop, _parse_list_response, hline]
    · simp only [listLoop]
      cases hp : _parse_list_response l with
      | error e => rw [parse_error_is_attributeError hp]
      | ok r => obtain ⟨f, d, n⟩ := r; exact ih hmem' _

/-! ## Lemmas about traces and state -/

theorem countSelect_append (a b : List TCall) :
    countSelect (a ++ b) = countSelect a + countSelect b := by
  simp [countSelect]

/-- `Connection.switch` always issues exactly its one select call. -/
theorem switch_trace (tr : Transport) (st : ConnState) (m : String) (r : Bool) :
    (Connection.switch tr st m r).2.2 = [.select m r] := by
  unfold Connection.switch
  cases hok : _ok (tr.selectR m r).1 with
  | error e => simp [hok]
  | ok v => simp [hok]

/-- `Connection.search` leaves the state unchanged and issues exactly its one
search call. -/
theorem search_state_trace (tr : Transport) (st : ConnState) (cs : Option String)
    (args : List String) :
    (Connection.search tr st cs args).2 = (st, [.search cs args]) := by
  unfold Connection.search
  cases hok : _ok (tr.searchR cs args).1 with
  | error e => simp [hok]
  | ok v =>
    cases hres : (tr.searchR cs args).2 with
    | nil => simp [hok, hres]
    | cons r rest =>
      by_cases hr : r = "" <;> simp [hok, hres, hr]

/-- `Connection.fetch` leaves the state unchanged and issues exactly its one
fetch call. -/
theorem fetch_state_trace (tr : Transport) (st : ConnState) (nums args : List String) :
    (Connection.fetch tr st nums args).2
      = (st, [.fetch (String.intercalate " " nums)
          ("(" ++ String.intercalate " " args ++ ")")]) := by
  unfold Connection.fetch
  cases hok : _ok (tr.fetchR (String.intercalate " " nums)
      ("(" ++ String.intercalate " " args ++ ")")).1 with
  | error e => simp [hok]
  | ok v => simp [hok]

/-- The store loop issues only store calls: its trace contains no select. -/
theorem storeLoop_countSelect (tr : Transport) (cmd flags : String) (ms : List String) :
    countSelect (storeLoop tr cmd flags ms).2 = 0 := by
  induction ms with
  | nil => rfl
  | cons m rest ih =>
    unfold storeLoop
    cases hok : _ok (tr.storeR m cmd flags).1 with
    | error e => simp [hok, countSelect]
    | ok v =>
      rcases hrec : storeLoop tr cmd flags rest with ⟨res, tc⟩
      rw [hrec] at ih
      cases res <;> simp [hok, hrec, countSelect] <;>
        simpa [countSelect] using ih

/-- `Connection.store` leaves the state unchanged. -/
theorem store_state (tr : Transport) (st : ConnState) (messages : List String)
    (flags command : String) (silent : Bool) :
    (Connection.store tr st messages flags command silent).2.1 = st := by
  simp only [Connection.store]
  rcases hsl : storeLoop tr (command ++ "FLAGS" ++ if silent then ".SILENT" else "")
      flags messages with ⟨res, tc⟩
  cases res <;> rfl

/-- `Connection.store` never issues a select call. -/
theorem store_countSelect (tr : Transport) (st : ConnState) (messages : List String)
    (flags command : String) (silent : Bool) :
    countSelect (Connection.store tr st messages flags command silent).2.2 = 0 := by
  simp only [Connection.store]
  have h := storeLoop_countSelect tr
    (command ++ "FLAGS" ++ if silent then ".SILENT" else "") flags messages
  rcases hsl : storeLoop tr (command ++ "FLAGS" ++ if silent then ".SILENT" else "")
      flags messages with ⟨res, tc⟩
  rw [hsl] at h
  cases res <;> simpa using h

theorem countSelect_nil : countSelect [] = 0 := rfl

theorem countSelect_single_select (m : String) (r : Bool) :
    countSelect [.select m r] = 1 := rfl

theorem countSelect_single_search (cs : Option String) (args : List String) :
    countSelect [.search cs args] = 0 := rfl

/-- A successful store loop returns one flag payload per input message. -/
theorem storeLoop_ok_length (tr : Transport) (cmd flags : String) (ms : List String)
    {l : List (List String)} {tc : List TCall}
    (h : storeLoop tr cmd flags ms = (.ok l, tc)) : l.length = ms.length := by
  induction ms generalizing l tc with
  | nil =>
    unfold storeLoop at h
    simp only [Prod.mk.injEq, Except.ok.injEq] at h
    rw [← h.1]
    rfl
  | cons m rest ih =>
    unfold storeLoop at h
    cases hok : _ok (tr.storeR m cmd flags).1 with
    | error e =>
      rw [hok] at h
      simp at h
    | ok u =>
      rw [hok] at h
      rcases hrec : storeLoop tr cmd flags rest with ⟨res, tc2⟩
      rw [hrec] at h
      cases res with
      | error e => simp at h
      | ok r2 =>
        simp only [Prod.mk.injEq, Except.ok.injEq] at h
        rw [← h.1]
        simp [ih hrec]

theorem countSelect_single_fetch (n c : String) : countSelect [.fetch n c] = 0 := rfl

/-- `MailBox._select` is a no-op when the cached mailbox name matches. -/
theorem _select_same (tr : Transport) (st : ConnState) (mb : MailBoxS)
    (h : st.mailbox = mb.mailbox) : MailBox._select tr st mb = (.ok (), st, []) := by
  unfold MailBox._select
  rw [if_neg (not_not_intro h)]

/-- `MailBox._select` issues exactly one select call when the cached mailbox
name differs. -/
theorem _select_countSelect_diff (tr : Transport) (st : ConnState) (mb : MailBoxS)
    (h : st.mailbox ≠ mb.mailbox) :
    countSelect (MailBox._select tr st mb).2.2 = 1 := by
  unfold MailBox._select
  rw [if_pos h, switch_trace]
  exact countSelect_single_select mb.mailbox mb.readonly

/-- `MailBox.search` adds no select call beyond `MailBox._select` and keeps
the state `_select` produced. -/
theorem mailboxSearch_frame (tr : Transport) (st : ConnState) (mb : MailBoxS)
    (cs : Option String) (args : List String) :
    countSelect (MailBox.search tr st mb cs args).2.2
      = countSelect (MailBox._select tr st mb).2.2
    ∧ (MailBox.search tr st mb cs args).2.1 = (MailBox._select tr st mb).2.1 := by
  unfold MailBox.search
  split
  · rename_i e st1 tc1 heq
    rw [heq]
    exact ⟨rfl, rfl⟩
  · rename_i u st1 tc1 heq
    rw [heq]
    split
    · rename_i e2 st2 tc2 heq2
      have h1 := search_state_trace tr st1 cs args
      rw [heq2] at h1
      simp only [Prod.mk.injEq] at h1
      constructor
      · show countSelect (tc1 ++ tc2) = countSelect tc1
        simp [h1.2, countSelect_append, countSelect_single_search]
      · show st2 = st1
        exact h1.1
    · rename_i ids st2 tc2 heq2
      have h1 := search_state_trace tr st1 cs args
      rw [heq2] at h1
      simp only [Prod.mk.injEq] at h1
      constructor
      · show countSelect (tc1 ++ tc2) = countSelect tc1
        simp [h1.2, countSelect_append, countSelect_single_search]
      · show st2 = st1
        exact h1.1

/-- `MailBox.fetch` adds no select call beyond `MailBox._select` and keeps
the state `_select` produced. -/
theorem mailboxFetch_frame (tr : Transport) (st : ConnState) (mb : MailBoxS)
    (nums args : List String) :
    countSelect (MailBox.fetch tr st mb nums args).2.2
      = countSelect (MailBox._select tr st mb).2.2
    ∧ (MailBox.fetch tr st mb nums args).2.1 = (MailBox._select tr st mb).2.1 := by
  unfold MailBox.fetch
  split
  · rename_i e st1 tc1 heq
    rw [heq]
    exact ⟨rfl, rfl⟩
  · rename_i u st1 tc1 heq
    rw [heq]
    split
    rename_i res2 st2 tc2 heq2
    have h1 := fetch_state_trace tr st1 nums args
    rw [heq2] at h1
    simp only [Prod.mk.injEq] at h1
    constructor
    · show countSelect (tc1 ++ tc2) = countSelect tc1
      simp [h1.2, countSelect_append, countSelect_single_fetch]
    · show st2 = st1
      exact h1.1

/-- A non-read-only `MailBox.store` adds no select call beyond
`MailBox._select` and keeps the state `_select` produced. -/
theorem mailboxStore_frame (tr : Transport) (st : ConnState) (mb : MailBoxS)
    (messages : List String) (flags command : String) (silent : Bool)
    (h : mb.readonly = false) :
    countSelect (MailBox.store tr st mb messages flags command silent).2.2
      = countSelect (MailBox._select tr st mb).2.2
    ∧ (MailBox.store tr st mb messages flags command silent).2.1
      = (MailBox._select tr st mb).2.1 := by
  unfold MailBox.store
  rw [if_neg (by simp [h])]
  split
  · rename_i e st1 tc1 heq
    rw [heq]
    exact ⟨rfl, rfl⟩
  · rename_i u st1 tc1 heq
    rw [heq]
    split
    rename_i res2 st2 tc2 heq2
    have h1 := store_state tr st1 messages flags command silent
    have h2 := store_countSelect tr st1 messages flags command silent
    rw [heq2] at h1 h2
    constructor
    · show countSelect (tc1 ++ tc2) = countSelect tc1
      rw [countSelect_append, show countSelect tc2 = 0 from h2, Nat.add_zero]
    · show st2 = st1
      exact h1

/-- A successful `Connection.store` returns one flag payload per message. -/
theorem connStore_ok_length (tr : Transport) (st : ConnState) (messages : List String)
    (flags command : String) (silent : Bool) {l : List (List String)}
    {st2 : ConnState} {tc2 : List TCall}
    (h : Connection.store tr st messages flags command silent = (.ok l, st2, tc2)) :
    l.length = messages.length := by
  simp only [Connection.store] at h
  split at h
  · exact Except.noConfusion (congrArg Prod.fst h)
  · rename_i results tc heq
    have hres : results = l := Except.ok.inj (congrArg Prod.fst h)
    rw [← hres]
    exact storeLoop_ok_length tr _ flags messages heq

/-- A successful `MailBox.store` returns one flag payload per message. -/
theorem mailboxStore_ok_length (tr : Transport) (st : ConnState) (mb : MailBoxS)
    (messages : List String) (flags command : String) (silent : Bool)
    {l : List (List String)} {st' : ConnState} {tc : List TCall}
    (h : MailBox.store tr st mb messages flags command silent = (.ok l, st', tc)) :
    l.length = messages.length := by
  unfold MailBox.store at h
  by_cases hro : mb.readonly = true
  · rw [if_pos hro] at h
    exact Except.noConfusion (congrArg Prod.fst h)
  · rw [if_neg hro] at h
    split at h
    · exact Except.noConfusion (congrArg Prod.fst h)
    · rename_i u st1 tc1 heq
      split at h
      rename_i res2 st2 tc2 heq2
      have hfst : res2 = .ok l := congrArg Prod.fst h
      rw [hfst] at heq2
      exact connStore_ok_length tr st1 messages flags command silent heq2

/-! ## Claim theorems -/

/-- C1: `Connection.switch` evaluated at the failing input.  The claim says a
successful `switchTo(m, r)` records `currentReadOnly = r`, the newly
requested read-only value; the code instead runs `self.readonly =
self.readonly` (line 121), so after `switch("Sent", readonly=True)` on a
connection whose cached read-only flag is `False` the cache still holds
`False`, not the requested `True`.  The mailbox name, by contrast, is
recorded as claimed. -/
theorem claim1_switch_keeps_old_readonly :
    Connection.switch okTransport { mailbox := "INBOX", readonly := false } "Sent" true
      = (.ok (), { mailbox := "Sent", readonly := false }, [.select "Sent" true])
    ∧ (false : Bool) ≠ true := ⟨rfl, by decide⟩

/-- C2 counterexample: on the malformed line `(\Seen) / INBOX` (missing
delimiter quotes) the parser raises the `AttributeError` from
`None.groups()`, which is not a distinct `UnparsableListing` error carrying
the offending line. -/
theorem claim2_counterexample :
    _parse_list_response "(\\Seen) / INBOX" = .error .attributeError
    ∧ PyErr.attributeError ≠ .unparsableListing "(\\Seen) / INBOX" :=
  ⟨rfl, by decide⟩

/-- C2 (amended): for every input line that does not match the expected
three-group shape, `_parse_list_response` fails with an error — the
`AttributeError` raised by calling `.groups()` on the `None` returned by the
failed match, not a distinct `UnparsableListing` error carrying the line —
and never returns a silently misparsed result; `Connection.list` propagates
that same error for any listing payload containing such a line. -/
theorem claim2_unparsable_line_raises (line : String)
    (hline : pyListMatch line.data = none) :
    _parse_list_response line = .error .attributeError
    ∧ ∀ (tr : Transport) (st : ConnState) (payload : List String),
        tr.listR = ("OK", payload) → line ∈ payload →
        Connection.list tr st = (.error .attributeError, st, [.list]) := by
  constructor
  · unfold _parse_list_response
    rw [hline]
  · intro tr st payload htr hmem
    have hloop := listLoop_error line hmem hline ([] : List (String × String × String))
    simp [Connection.list, htr, _ok, hloop]

/-- C2 witness: the amended theorem applied to the malformed line
`(\Seen) / INBOX` inside a concrete listing payload. -/
theorem claim2_unparsable_line_raises_witness :
    _parse_list_response "(\\Seen) / INBOX" = .error .attributeError
    ∧ Connection.list badListTransport initConnState
      = (.error .attributeError, initConnState, [.list]) :=
  have h := claim2_unparsable_line_raises "(\\Seen) / INBOX" (by decide)
  ⟨h.1, h.2 badListTransport initConnState ["() \"/\" INBOX", "(\\Seen) / INBOX"]
    rfl (by decide)⟩

/-- C5 counterexample: Python's `strip('"')` removes ALL leading and trailing
double quotes from the name, not exactly one pair: on the line
`() "/" ""a""` the parsed name is `a`, whereas stripping exactly one pair
would give `"a"`. -/
theorem claim5_counterexample :
    _parse_list_response "() \"/\" \"\"a\"\"" = .ok ("", "/", "a")
    ∧ ("a" : String) ≠ "\"a\"" := ⟨rfl, by decide⟩

/-- C5 (amended): for every listing line of the expected shape
`(<flags>) "<delimiter>" <name>` (flags without `)` and none of the groups
spanning a newline, the name not containing the two-character sequence
quote-space), `_parse_list_response` returns the three captured groups with
ALL leading and trailing double-quote characters stripped from the name (not
exactly one pair); in particular `(\Seen \Flagged) "/" INBOX.Sent` yields
flags `\Seen \Flagged`, delimiter `/`, name `INBOX.Sent`, and an empty flags
group yields an empty-string flags value, not an error. -/
theorem claim5_parse_list_shape (flags delim name : List Char)
    (h1 : '\n' ∉ flags) (h2 : ')' ∉ flags)
    (h3 : '\n' ∉ delim) (h4 : '\n' ∉ name) (h5 : noPair name = true) :
    _parse_list_response (mkListLine flags delim name)
      = .ok (String.mk flags, String.mk delim, String.mk (pyStripQuotes name))
    ∧ _parse_list_response "(\\Seen \\Flagged) \"/\" INBOX.Sent"
      = .ok ("\\Seen \\Flagged", "/", "INBOX.Sent")
    ∧ _parse_list_response "() \".\" INBOX" = .ok ("", ".", "INBOX") := by
  refine ⟨?_, rfl, rfl⟩
  unfold _parse_list_response
  rw [pyListMatch_mkListLine h1 h2 h3 h4 h5]

/-- C5 witness: the shape theorem applied to a concrete quoted-name line,
`(\Answered) "/" "My Box"`, whose name loses its surrounding quotes. -/
theorem claim5_parse_list_shape_witness :
    _parse_list_response (mkListLine "\\Answered".data "/".data "\"My Box\"".data)
      = .ok ("\\Answered", "/", "My Box")
    ∧ _parse_list_response "(\\Seen \\Flagged) \"/\" INBOX.Sent"
      = .ok ("\\Seen \\Flagged", "/", "INBOX.Sent")
    ∧ _parse_list_response "() \".\" INBOX" = .ok ("", ".", "INBOX") :=
  claim5_parse_list_shape "\\Answered".data "/".data "\"My Box\"".data
    (by decide) (by decide) (by decide) (by decide) (by decide)

/-- C7: `_ok` is a no-op for status `"OK"` and fails with `BadReturnStatus`
carrying the actual status string (in the message `status was <status>`) for
every other status string. -/
theorem claim7_ok_validates_status (s : String) :
    (s = "OK" → _ok s = .ok ())
    ∧ (s ≠ "OK" → _ok s = .error (.badReturnStatus ("status was " ++ s))) := by
  constructor
  · intro h
    simp [_ok, h]
  · intro h
    simp [_ok, h]

/-- C7 witness: `_ok` at `"OK"`, at `"NO"` and at the empty string. -/
theorem claim7_ok_validates_status_witness :
    _ok "OK" = .ok ()
    ∧ _ok "NO" = .error (.badReturnStatus "status was NO")
    ∧ _ok "" = .error (.badReturnStatus "status was ") :=
  ⟨(claim7_ok_validates_status "OK").1 rfl,
   (claim7_ok_validates_status "NO").2 (by decide),
   (claim7_ok_validates_status "").2 (by decide)⟩

/-- C9: when the transport select inside `Connection.switch` returns a
non-`"OK"` status, the operation fails with `BadReturnStatus` and the cached
`mailbox`/`readonly` state is returned unchanged: the error is raised before
any cache update. -/
theorem claim9_failed_switch_atomic (tr : Transport) (st : ConnState)
    (m : String) (r : Bool) (h : (tr.selectR m r).1 ≠ "OK") :
    Connection.switch tr st m r
      = (.error (.badReturnStatus ("status was " ++ (tr.selectR m r).1)),
          st, [.select m r]) := by
  unfold Connection.switch
  rw [show _ok (tr.selectR m r).1
      = .error (.badReturnStatus ("status was " ++ (tr.selectR m r).1)) from by
    simp [_ok, h]]

/-- C9 witness: a failing switch on the all-`"NO"` transport leaves the
initial state untouched. -/
theorem claim9_failed_switch_atomic_witness :
    Connection.switch noTransport initConnState "Sent" false
      = (.error (.badReturnStatus "status was NO"), initConnState,
          [.select "Sent" false]) :=
  claim9_failed_switch_atomic noTransport initConnState "Sent" false (by decide)

/-- C3: `MailBox.search` triggers exactly one additional transport select
call when the connection's cached current mailbox name differs from the
mailbox's name (the two-handles scenario: after an operation on the first
handle the cache holds the first's name, so searching the second mismatches),
and zero additional select calls when the cached name already equals the
mailbox's name. -/
theorem claim3_search_select_count (tr : Transport) (st : ConnState) (mb : MailBoxS)
    (cs : Option String) (args : List String) :
    (st.mailbox ≠ mb.mailbox → countSelect (MailBox.search tr st mb cs args).2.2 = 1)
    ∧ (st.mailbox = mb.mailbox → countSelect (MailBox.search tr st mb cs args).2.2 = 0) := by
  constructor
  · intro hne
    rw [(mailboxSearch_frame tr st mb cs args).1]
    exact _select_countSelect_diff tr st mb hne
  · intro heq
    rw [(mailboxSearch_frame tr st mb cs args).1, _select_same tr st mb heq]
    rfl

/-- C3 witness: searching a mailbox named `B` while the cache holds `A`
issues one select; searching it while the cache already holds `B` issues
none. -/
theorem claim3_search_select_count_witness :
    countSelect (MailBox.search okTransport { mailbox := "A", readonly := false }
      { mailbox := "B", readonly := false } none ["ALL"]).2.2 = 1
    ∧ countSelect (MailBox.search okTransport { mailbox := "B", readonly := false }
      { mailbox := "B", readonly := false } none ["ALL"]).2.2 = 0 :=
  ⟨(claim3_search_select_count okTransport { mailbox := "A", readonly := false }
      { mailbox := "B", readonly := false } none ["ALL"]).1 (by decide),
   (claim3_search_select_count okTransport { mailbox := "B", readonly := false }
      { mailbox := "B", readonly := false } none ["ALL"]).2 rfl⟩

/-- C4: a store on a read-only `MailBox` — and on a `Message`, which
delegates to `MailBox.store` — fails immediately with `ReadOnlyException`:
the transport trace is empty (zero store and zero select calls) and the
connection state is unchanged. -/
theorem claim4_readonly_store_rejected (tr : Transport) (st : ConnState)
    (mb : MailBoxS) (messages : List String) (flags command : String) (silent : Bool)
    (h : mb.readonly = true) :
    MailBox.store tr st mb messages flags command silent
      = (.error .readOnlyException, st, [])
    ∧ ∀ msg : MessageS, msg.readonly = true →
        Message.store tr st msg flags command silent
          = (.error .readOnlyException, st, []) := by
  constructor
  · unfold MailBox.store
    rw [if_pos h]
  · intro msg hm
    have hmb : MailBox.store tr st msg.toMailBox [msg.num] flags command silent
        = (.error .readOnlyException, st, []) := by
      unfold MailBox.store
      rw [if_pos (show msg.toMailBox.readonly = true from hm)]
    unfold Message.store
    rw [hmb]

/-- C4 witness: storing through a read-only mailbox (and message) on the
all-OK transport makes zero transport calls and fails. -/
theorem claim4_readonly_store_rejected_witness :
    MailBox.store okTransport initConnState { mailbox := "INBOX", readonly := true }
      ["1"] "\\Seen" "+" false = (.error .readOnlyException, initConnState, [])
    ∧ Message.store okTransport initConnState
      { mailbox := "INBOX", readonly := true, num := "1" } "\\Seen" "+" false
      = (.error .readOnlyException, initConnState, []) :=
  have h := claim4_readonly_store_rejected okTransport initConnState
    { mailbox := "INBOX", readonly := true } ["1"] "\\Seen" "+" false rfl
  ⟨h.1, h.2 { mailbox := "INBOX", readonly := true, num := "1" } rfl⟩

/-- C6: `Connection.search` returns the empty sequence when the first element
of the transport payload is the empty string; otherwise it splits the
space-separated token string into the individual item-number strings in
server order — in particular payload `['1 2 3']` yields `["1", "2", "3"]`. -/
theorem claim6_search_splits_ids (tr : Transport) (st : ConnState)
    (cs : Option String) (args : List String) (s : String) (rest : List String) :
    (tr.searchR cs args = ("OK", "" :: rest) →
      Connection.search tr st cs args = (.ok [], st, [.search cs args]))
    ∧ (tr.searchR cs args = ("OK", s :: rest) → s ≠ "" →
      Connection.search tr st cs args
        = (.ok ((pySplitSpace s.data).map String.mk), st, [.search cs args]))
    ∧ (tr.searchR cs args = ("OK", ["1 2 3"]) →
      Connection.search tr st cs args = (.ok ["1", "2", "3"], st, [.search cs args])) := by
  refine ⟨?_, ?_, ?_⟩
  · intro h
    simp [Connection.search, h, _ok]
  · intro h hs
    simp [Connection.search, h, _ok, hs]
  · intro h
    have h2 : Connection.search tr st cs args
        = (.ok ((pySplitSpace "1 2 3".data).map String.mk), st, [.search cs args]) := by
      simp [Connection.search, h, _ok]
    rw [h2]
    rfl

/-- C6 witness: payload `['']` yields the empty sequence and payload
`['1 2 3']` yields `["1", "2", "3"]`. -/
theorem claim6_search_splits_ids_witness :
    Connection.search emptySearchTransport initConnState none ["ALL"]
      = (.ok [], initConnState, [.search none ["ALL"]])
    ∧ Connection.search okTransport initConnState none ["ALL"]
      = (.ok ["1", "2", "3"], initConnState, [.search none ["ALL"]]) :=
  ⟨(claim6_search_splits_ids emptySearchTransport initConnState none ["ALL"] "" []).1 rfl,
   (claim6_search_splits_ids okTransport initConnState none ["ALL"] "" []).2.2 rfl⟩

/-- C8: when the underlying one-element store batch succeeds, `Message.store`
returns the single new-flag value (the one element of the sequence produced
by `MailBox.store` on `[itemNumber]`), not a one-element sequence. -/
theorem claim8_message_store_unwraps (tr : Transport) (st : ConnState)
    (msg : MessageS) (flags command : String) (silent : Bool)
    (l : List (List String)) (st' : ConnState) (tc : List TCall)
    (h : MailBox.store tr st msg.toMailBox [msg.num] flags command silent
      = (.ok l, st', tc)) :
    ∃ x, l = [x] ∧ Message.store tr st msg flags command silent = (.ok x, st', tc) := by
  have hlen : l.length = 1 :=
    mailboxStore_ok_length tr st msg.toMailBox [msg.num] flags command silent h
  obtain ⟨x, hx⟩ := List.length_eq_one.mp hlen
  refine ⟨x, hx, ?_⟩
  unfold Message.store
  rw [h, hx]

/-- C8 witness: on the all-OK transport a message store returns the single
flag payload for its item number. -/
theorem claim8_message_store_unwraps_witness :
    ∃ x, ([["flags of 3"]] : List (List String)) = [x]
    ∧ Message.store okTransport initConnState
        { mailbox := "INBOX", readonly := false, num := "3" } "\\Seen" "+" false
      = (.ok x, initConnState, [.store "3" "+FLAGS" "\\Seen"]) :=
  claim8_message_store_unwraps okTransport initConnState
    { mailbox := "INBOX", readonly := false, num := "3" } "\\Seen" "+" false
    [["flags of 3"]] initConnState [.store "3" "+FLAGS" "\\Seen"] rfl

/-- C10: `MailBox._select` compares only the mailbox name, never the
read-only flag: when the mailbox's name equals the cached current mailbox but
its read-only flag differs from the cached one, search, fetch and store all
perform zero transport select calls and leave the connection's cached state
unchanged (so the operation runs under whatever read-only mode was previously
selected). -/
theorem claim10_select_ignores_readonly (tr : Transport) (st : ConnState)
    (mb : MailBoxS) (cs : Option String) (args nums parts messages : List String)
    (flags command : String) (silent : Bool)
    (hname : mb.mailbox = st.mailbox) (_hro : mb.readonly ≠ st.readonly) :
    (countSelect (MailBox.search tr st mb cs args).2.2 = 0
      ∧ (MailBox.search tr st mb cs args).2.1 = st)
    ∧ (countSelect (MailBox.fetch tr st mb nums parts).2.2 = 0
      ∧ (MailBox.fetch tr st mb nums parts).2.1 = st)
    ∧ (countSelect (MailBox.store tr st mb messages flags command silent).2.2 = 0
      ∧ (MailBox.store tr st mb messages flags command silent).2.1 = st) := by
  have hsel := _select_same tr st mb hname.symm
  refine ⟨?_, ?_, ?_⟩
  · have hf := mailboxSearch_frame tr st mb cs args
    rw [hf.1, hf.2, hsel]
    exact ⟨rfl, rfl⟩
  · have hf := mailboxFetch_frame tr st mb nums parts
    rw [hf.1, hf.2, hsel]
    exact ⟨rfl, rfl⟩
  · by_cases hmb : mb.readonly = true
    · have hst : MailBox.store tr st mb messages flags command silent
          = (.error .readOnlyException, st, []) := by
        unfold MailBox.store
        rw [if_pos hmb]
      rw [hst]
      exact ⟨rfl, rfl⟩
    · have hf := mailboxStore_frame tr st mb messages flags command silent
        (Bool.not_eq_true mb.readonly |>.mp hmb)
      rw [hf.1, hf.2, hsel]
      exact ⟨rfl, rfl⟩

/-- C10 witness: a mailbox named like the cached mailbox but with the
opposite read-only flag triggers no select and leaves the cache unchanged for
search, fetch and store. -/
theorem claim10_select_ignores_readonly_witness :
    (countSelect (MailBox.search okTransport initConnState
        { mailbox := "INBOX", readonly := true } none ["ALL"]).2.2 = 0
      ∧ (MailBox.search okTransport initConnState
        { mailbox := "INBOX", readonly := true } none ["ALL"]).2.1 = initConnState)
    ∧ (countSelect (MailBox.fetch okTransport initConnState
        { mailbox := "INBOX", readonly := true } ["1"] ["RFC822"]).2.2 = 0
      ∧ (MailBox.fetch okTransport initConnState
        { mailbox := "INBOX", readonly := true } ["1"] ["RFC822"]).2.1 = initConnState)
    ∧ (countSelect (MailBox.store okTransport initConnState
        { mailbox := "INBOX", readonly := true } ["1"] "\\Seen" "+" false).2.2 = 0
      ∧ (MailBox.store okTransport initConnState
        { mailbox := "INBOX", readonly := true } ["1"] "\\Seen" "+" false).2.1
        = initConnState) :=
  claim10_select_ignores_readonly okTransport initConnState
    { mailbox := "INBOX", readonly := true } none ["ALL"] ["1"] ["RFC822"] ["1"]
    "\\Seen" "+" false rfl (by decide)

end EasyImap
